import Mathlib

/-!
Verification of the marking-and-compositing pipeline of the
historical-street-view repository: the point-capture state machine and
coordinate mapper of src/components/MapMarker.tsx, the arrow geometry
renderer (drawArrow), the generation orchestrator of the application
root component, and the data-URI parsing of the generation service.
-/

namespace StreetView

/-- A point in image-native pixel coordinates, as produced per capture
in MapMarker.tsx. -/
structure Pt (α : Type) where
  x : α
  y : α
deriving DecidableEq

/-- The data a canvas click event carries into handleCanvasClick:
the pointer position, the bounding rectangle of the displayed canvas,
and the canvas buffer (native image) dimensions. -/
structure Ev (α : Type) where
  clientX : α
  clientY : α
  rectLeft : α
  rectTop : α
  rectWidth : α
  rectHeight : α
  canvasWidth : α
  canvasHeight : α
deriving DecidableEq

/-- The coordinate computation of handleCanvasClick in MapMarker.tsx:
scaleX = canvas.width / rect.width, scaleY = canvas.height / rect.height,
x = (clientX - rect.left) * scaleX, y = (clientY - rect.top) * scaleY. -/
def mapCoords {α : Type} [DivisionRing α] (e : Ev α) : Pt α :=
  let scaleX := e.canvasWidth / e.rectWidth
  let scaleY := e.canvasHeight / e.rectHeight
  ⟨(e.clientX - e.rectLeft) * scaleX, (e.clientY - e.rectTop) * scaleY⟩

/-- handleCanvasClick of MapMarker.tsx: returns the updated points list.
Guard: if points.length >= 2 or disabled, return unchanged; otherwise
append the mapped point. -/
def handleCanvasClick {α : Type} [DivisionRing α] (disabled : Bool)
    (points : List (Pt α)) (e : Ev α) : List (Pt α) :=
  if 2 ≤ points.length ∨ disabled = true then points
  else points ++ [mapCoords e]

/-- handleUndo of MapMarker.tsx: points.slice(0, -1), dropping the most
recently added point (a no-op on the empty list, as slice is). -/
def handleUndo {α : Type} (points : List (Pt α)) : List (Pt α) :=
  points.dropLast

/-- An operation on the point-capture state machine: a canvas click
(carrying its event data) or an undo. -/
inductive MarkOp (α : Type) where
  | add : Ev α → MarkOp α
  | undo : MarkOp α
deriving DecidableEq

/-- Run a sequence of point-capture operations through the MapMarker
handlers, starting from a given points list. -/
def runOps {α : Type} [DivisionRing α] (disabled : Bool) :
    List (Pt α) → List (MarkOp α) → List (Pt α)
  | ps, [] => ps
  | ps, MarkOp.add e :: ops => runOps disabled (handleCanvasClick disabled ps e) ops
  | ps, MarkOp.undo :: ops => runOps disabled (handleUndo ps) ops

/-- Number of Add operations in a sequence. -/
def countAdds {α : Type} : List (MarkOp α) → Nat
  | [] => 0
  | MarkOp.add _ :: ops => countAdds ops + 1
  | MarkOp.undo :: ops => countAdds ops

/-- Number of Undo operations in a sequence. -/
def countUndos {α : Type} : List (MarkOp α) → Nat
  | [] => 0
  | MarkOp.add _ :: ops => countUndos ops
  | MarkOp.undo :: ops => countUndos ops + 1

/-- A sequence is valid from a given points list when every Add occurs
with fewer than two stored points and every Undo occurs with at least
one stored point (the regimes in which the spec declares the operations
valid, i.e. no call is clamped into a no-op). -/
def markValid {α : Type} [DivisionRing α] :
    List (Pt α) → List (MarkOp α) → Bool
  | _, [] => true
  | ps, MarkOp.add e :: ops =>
      decide (ps.length < 2) && markValid (ps ++ [mapCoords e]) ops
  | ps, MarkOp.undo :: ops =>
      !ps.isEmpty && markValid ps.dropLast ops

/-- The application-level state enum of the orchestrator. -/
inductive AppState where
  | upload
  | marking
  | generating
  | result
deriving DecidableEq

/-- The orchestrator state of the application root component: the
active screen, the uploaded map image, the last generated image, the
cached merged (composited) image used for regeneration, the surfaced
error, and the points list of the currently mounted MapMarker. The
points are component-local useState of MapMarker, not root state: they
live only as long as that MapMarker instance stays mounted, and the
render semantics below reset them whenever a screen change remounts
it. -/
structure OrchState where
  appState : AppState
  mapImageUrl : Option String
  generatedImageUrl : Option String
  lastMergedImage : Option String
  error : Option String
  points : List (Pt ℚ)
deriving DecidableEq

/-- JavaScript truthiness of a nullable string: null and the empty
string are falsy. -/
def truthy : Option String → Bool
  | none => false
  | some s => !s.isEmpty

/-- The outcome of one generateStreetView call as observed by the
orchestrator: either a thrown error message, or a resolved value that
is an image string or null. -/
def serviceFailed : Except String (Option String) → Bool
  | Except.error _ => true
  | Except.ok r => !truthy r

/-- React reconciliation of renderContent across a screen change,
applied to the MapMarker points state: renderContent returns a
different root element type for each screen (FileUpload for UPLOAD,
MapMarker alone for MARKING, a div overlay wrapping a disabled
MapMarker or ResultDisplay for GENERATING, ResultDisplay for RESULT),
so any change of appState unmounts the previously mounted MapMarker,
discarding its local state, and a freshly mounted MapMarker starts
with an empty points list; a render with an unchanged appState keeps
the component instance and its state. -/
def pointsAfterRender (prev next : AppState) (points : List (Pt ℚ)) :
    List (Pt ℚ) :=
  if prev = next then points else []

/-- A setAppState call together with the re-render it triggers: the
screen changes and the mounted MapMarker points survive only when the
screen does not change. -/
def setAppStateRender (s : OrchState) (next : AppState) : OrchState :=
  { s with appState := next,
           points := pointsAfterRender s.appState next s.points }

/-- handleGenerationStart of the root component, with the awaited
generateStreetView outcome passed in: cache the merged image, enter
GENERATING (a screen change whose re-render remounts MapMarker) with
the error cleared, then on a truthy image store it and enter RESULT;
otherwise (null result, treated as a thrown error, or a thrown error)
set the error message and fall back to MARKING, whose re-render mounts
a fresh MapMarker again. -/
def handleGenerationStart (s : OrchState) (merged : String)
    (svc : Except String (Option String)) : OrchState :=
  let s1 : OrchState :=
    setAppStateRender { s with lastMergedImage := some merged }
      AppState.generating
  let s1 : OrchState := { s1 with error := none }
  match svc with
  | Except.ok generated =>
      if truthy generated then
        setAppStateRender { s1 with generatedImageUrl := generated }
          AppState.result
      else
        setAppStateRender
          { s1 with
              error := some ("Failed to generate view: " ++
                "The AI model did not return an image. Please try again.") }
          AppState.marking
  | Except.error msg =>
      setAppStateRender
        { s1 with error := some ("Failed to generate view: " ++ msg) }
        AppState.marking

/-- handleRegenerate of the root component, with the awaited
generateStreetView outcome passed in; the second component counts how
many times generateStreetView is invoked during the handler. If the
cached merged image is missing (JS-falsy), set the guidance error and
go to MARKING without calling the service; otherwise enter GENERATING,
call the service once, and land in RESULT either with the new image or
with the error attached. -/
def handleRegenerate (s : OrchState)
    (svc : Except String (Option String)) : OrchState × Nat :=
  if truthy s.lastMergedImage = false then
    (setAppStateRender
      { s with
          error := some ("Cannot regenerate, previous image data is missing." ++
            " Please try marking a spot again.") }
      AppState.marking, 0)
  else
    let s1 : OrchState := setAppStateRender s AppState.generating
    let s1 : OrchState := { s1 with error := none }
    match svc with
    | Except.ok generated =>
        if truthy generated then
          (setAppStateRender { s1 with generatedImageUrl := generated }
            AppState.result, 1)
        else
          (setAppStateRender
            { s1 with
                error := some ("Failed to regenerate view: " ++
                  "The AI model did not return an image. Please try again.") }
            AppState.result, 1)
    | Except.error msg =>
        (setAppStateRender
          { s1 with error := some ("Failed to regenerate view: " ++ msg) }
          AppState.result, 1)

/-- handleRestart of the root component: clear the generated image and
the error, and return to MARKING (whose re-render mounts a fresh
MapMarker). -/
def handleRestart (s : OrchState) : OrchState :=
  setAppStateRender { s with generatedImageUrl := none, error := none }
    AppState.marking

/-- handleUploadNew of the root component: discard the map image, the
generated image, the cached merged image and the error, and return to
UPLOAD. -/
def handleUploadNew (s : OrchState) : OrchState :=
  { s with mapImageUrl := none, generatedImageUrl := none,
           lastMergedImage := none, error := none,
           appState := AppState.upload }

/-- handleGenerateClick of MapMarker.tsx: if the canvas, context or
image is unavailable or points.length is not 2, return without
producing an artifact; otherwise re-render and export the composited
artifact (abstracted as a function of the stored points) and hand it to
onGenerate. -/
def handleGenerateClick (canvasReady : Bool) (points : List (Pt ℚ))
    (encode : List (Pt ℚ) → String) : Option String :=
  if canvasReady = false ∨ points.length ≠ 2 then none
  else some (encode points)

/-- The disabled condition of the Generate button in MapMarker.tsx:
points.length !== 2 || disabled. -/
def generateButtonDisabled (points : List (Pt ℚ)) (disabled : Bool) : Bool :=
  decide (points.length ≠ 2) || disabled

/-- The export trigger as wired in the source: the Generate button
invokes handleGenerateClick, which calls onGenerate (the root
component's handleGenerationStart) only when it produced an artifact. -/
def triggerExport (s : OrchState) (canvasReady : Bool)
    (encode : List (Pt ℚ) → String)
    (svc : Except String (Option String)) : OrchState :=
  match handleGenerateClick canvasReady s.points encode with
  | none => s
  | some merged => handleGenerationStart s merged svc

/-- A character in the regex class [a-z]: a lowercase ASCII letter. -/
def isLowerAlpha (c : Char) : Bool :=
  decide ('a' ≤ c) && decide (c ≤ 'z')

/-- A JavaScript regex line terminator, which the dot of the pattern
does not match. -/
def lineTerminator (c : Char) : Bool :=
  c == '\n' || c == '\r' || c == '\u2028' || c == '\u2029'

/-- Consume an expected literal character sequence at the front of a
list, returning the remainder when it is present. -/
def chompLit : List Char → List Char → Option (List Char)
  | [], l => some l
  | _ :: _, [] => none
  | p :: ps, c :: cs => if c = p then chompLit ps cs else none

/-- base64ToInlineData of the generation service: match the input
against the anchored regex for a data URI, data:(image\/[a-z]+);base64,
followed by the payload captured by a dot-star up to the end of input,
and return the captured mimeType and data; a non-matching input is
rejected (the source throws). The greedy [a-z]+ run is maximal, and is
equivalent to the regex because a semicolon is not in [a-z]. -/
def base64ToInlineData (s : String) : Option (String × String) :=
  match chompLit "data:image/".data s.data with
  | none => none
  | some rest =>
    let sub := rest.takeWhile isLowerAlpha
    let rest2 := rest.dropWhile isLowerAlpha
    if sub = [] then none
    else
      match chompLit ";base64,".data rest2 with
      | none => none
      | some payload =>
        if payload.any lineTerminator then none
        else some (String.mk ("image/".data ++ sub), String.mk payload)

/-- The scan of generateStreetView over the response parts: each part
optionally carries inlineData (mimeType, data); the first part carrying
it is turned into a data URL, and null is returned when none does. -/
def firstInline : List (Option (String × String)) → Option String
  | [] => none
  | some (mime, bytes) :: _ => some ("data:" ++ mime ++ ";base64," ++ bytes)
  | none :: parts => firstInline parts

/-- generateStreetView of the generation service, with the external
call outcome passed in as svc; the second component counts how many
times the external service is contacted. The input is first parsed by
base64ToInlineData inside the try block: a parse failure is rethrown by
the catch as a Gemini API Error without any service call. Otherwise the
service is contacted once and its thrown error is wrapped, or its parts
are scanned for the first inline image. -/
def generateStreetView (mergedImageBase64 : String)
    (svc : Except String (List (Option (String × String)))) :
    Except String (Option String) × Nat :=
  match base64ToInlineData mergedImageBase64 with
  | none => (Except.error ("Gemini API Error: " ++ "Invalid base64 string format"), 0)
  | some _ =>
    match svc with
    | Except.error msg => (Except.error ("Gemini API Error: " ++ msg), 1)
    | Except.ok parts => (Except.ok (firstInline parts), 1)

/-- Follows the claim text: the input matches the pattern
data:image/<lowercase ASCII letters>;base64,<payload>, with a nonempty
all-lowercase MIME subtype. -/
def claimPatternMatch (s : String) : Prop :=
  ∃ sub payload : List Char, sub ≠ [] ∧ sub.all isLowerAlpha = true ∧
    s.data = "data:image/".data ++ sub ++ ";base64,".data ++ payload

/-- Math.atan2(y, x), embedded as the argument of the complex number
x + y i, which agrees with atan2 on all of its quadrant case split and
maps (0, 0) to 0. -/
noncomputable def atan2 (y x : ℝ) : ℝ :=
  Complex.arg ⟨x, y⟩

/-- A drawing command issued to the 2D canvas context. -/
inductive CanvasCmd where
  | setStrokeStyle : String → CanvasCmd
  | setLineWidth : ℝ → CanvasCmd
  | setLineCap : String → CanvasCmd
  | setShadowColor : String → CanvasCmd
  | setShadowBlur : ℝ → CanvasCmd
  | beginPath : CanvasCmd
  | moveTo : ℝ → ℝ → CanvasCmd
  | lineTo : ℝ → ℝ → CanvasCmd
  | stroke : CanvasCmd

/-- The first arrowhead endpoint drawn by drawArrow:
(to.x - headlen * cos(angle - pi/6), to.y - headlen * sin(angle - pi/6))
with headlen = 25. -/
noncomputable def arrowheadEnd1 (fr tp : Pt ℝ) : Pt ℝ :=
  let headlen : ℝ := 25
  let angle := atan2 (tp.y - fr.y) (tp.x - fr.x)
  ⟨tp.x - headlen * Real.cos (angle - Real.pi / 6),
   tp.y - headlen * Real.sin (angle - Real.pi / 6)⟩

/-- The second arrowhead endpoint drawn by drawArrow:
(to.x - headlen * cos(angle + pi/6), to.y - headlen * sin(angle + pi/6))
with headlen = 25. -/
noncomputable def arrowheadEnd2 (fr tp : Pt ℝ) : Pt ℝ :=
  let headlen : ℝ := 25
  let angle := atan2 (tp.y - fr.y) (tp.x - fr.x)
  ⟨tp.x - headlen * Real.cos (angle + Real.pi / 6),
   tp.y - headlen * Real.sin (angle + Real.pi / 6)⟩

/-- The negated unit direction vector of the arrow, (-ux, -uy) for the
normalized direction ux = dx / length, uy = dy / length computed in
drawArrow: the reverse direction the spec measures the arrowhead angles
against. -/
noncomputable def reverseUnit (fr tp : Pt ℝ) : Pt ℝ :=
  let dx := tp.x - fr.x
  let dy := tp.y - fr.y
  let length := Real.sqrt (dx * dx + dy * dy)
  ⟨-(dx / length), -(dy / length)⟩

/-- drawArrow of MapMarker.tsx as the sequence of commands it issues to
the canvas context: compute dx, dy, angle = atan2(dy, dx) and
length = sqrt(dx * dx + dy * dy); return without any command when the
length is zero; otherwise extend the tail backwards by 50 units along
the unit direction, set the stroke style, stroke the tail-to-tip line,
and stroke the two arrowhead segments whose endpoints are
arrowheadEnd1 and arrowheadEnd2 (headlen = 25, angles plus and minus
pi/6 around the arrow angle, matching the source expressions). -/
noncomputable def drawArrow (fr tp : Pt ℝ) : List CanvasCmd :=
  let tailExtension : ℝ := 50
  let dx := tp.x - fr.x
  let dy := tp.y - fr.y
  let length := Real.sqrt (dx * dx + dy * dy)
  if length = 0 then []
  else
    let ux := dx / length
    let uy := dy / length
    let tailX := fr.x - ux * tailExtension
    let tailY := fr.y - uy * tailExtension
    [CanvasCmd.setStrokeStyle "#FF007A",
     CanvasCmd.setLineWidth 6,
     CanvasCmd.setLineCap "round",
     CanvasCmd.setShadowColor "rgba(0, 0, 0, 0.7)",
     CanvasCmd.setShadowBlur 10,
     CanvasCmd.beginPath,
     CanvasCmd.moveTo tailX tailY,
     CanvasCmd.lineTo tp.x tp.y,
     CanvasCmd.stroke,
     CanvasCmd.beginPath,
     CanvasCmd.moveTo tp.x tp.y,
     CanvasCmd.lineTo (arrowheadEnd1 fr tp).x (arrowheadEnd1 fr tp).y,
     CanvasCmd.moveTo tp.x tp.y,
     CanvasCmd.lineTo (arrowheadEnd2 fr tp).x (arrowheadEnd2 fr tp).y,
     CanvasCmd.stroke,
     CanvasCmd.setShadowColor "transparent",
     CanvasCmd.setShadowBlur 0]

/-- A concrete all-zero click event (its mapped point is the origin). -/
def evZero : Ev ℚ := ⟨0, 0, 0, 0, 1, 1, 1, 1⟩

/-- The operation sequence Add, Add, Add, Undo: the third Add is
clamped by the two-point guard, so the run ends with one stored point
while the claimed count formula predicts two. -/
def opsClamp : List (MarkOp ℚ) :=
  [MarkOp.add evZero, MarkOp.add evZero, MarkOp.add evZero, MarkOp.undo]

/-- The operation sequence Add, Undo, Add, Add: valid at every step
(no guard fires), ending with two stored points. -/
def opsValidRun : List (MarkOp ℚ) :=
  [MarkOp.add evZero, MarkOp.undo, MarkOp.add evZero, MarkOp.add evZero]

/-- A concrete orchestrator state sitting on the RESULT screen with a
cached merged image, as left behind by a successful generation. -/
def resultState : OrchState :=
  ⟨AppState.result, some "map", some "generated", some "merged", none, []⟩

/-- The length of the points list never grows beyond two under any run
of the MapMarker handlers, because handleCanvasClick refuses to append
at two points. -/
theorem runOps_length_le_two (d : Bool) (ops : List (MarkOp ℚ)) :
    ∀ ps : List (Pt ℚ), ps.length ≤ 2 → (runOps d ps ops).length ≤ 2 := by
  induction ops with
  | nil => intro ps h; simpa [runOps] using h
  | cons op ops ih =>
    intro ps h
    cases op with
    | add e =>
      simp only [runOps]
      apply ih
      unfold handleCanvasClick
      split
      · exact h
      · rename_i hguard
        simp only [not_or] at hguard
        have : ps.length < 2 := by omega
        simp [this]
        omega
    | undo =>
      simp only [runOps]
      apply ih
      unfold handleUndo
      have := List.length_dropLast ps
      omega

/-- On a valid sequence, each Add appends and each Undo removes one
point, so the final length is the starting length plus the Add count
minus the Undo count. -/
theorem runOps_length_valid (ops : List (MarkOp ℚ)) :
    ∀ ps : List (Pt ℚ), markValid ps ops = true →
      ((runOps false ps ops).length : ℤ) =
        ps.length + countAdds ops - countUndos ops := by
  induction ops with
  | nil => intro ps _; simp [runOps, countAdds, countUndos]
  | cons op ops ih =>
    intro ps h
    cases op with
    | add e =>
      simp only [markValid, Bool.and_eq_true, decide_eq_true_eq] at h
      obtain ⟨hlt, hrest⟩ := h
      have hclick : handleCanvasClick false ps e = ps ++ [mapCoords e] := by
        unfold handleCanvasClick
        have hguard : ¬ (2 ≤ ps.length ∨ false = true) := by
          simp only [Bool.false_eq_true, or_false, not_le]
          omega
        rw [if_neg hguard]
      simp only [runOps, hclick]
      have := ih (ps ++ [mapCoords e]) hrest
      simp only [List.length_append, List.length_singleton] at this
      simp only [countAdds, countUndos]
      push_cast at this ⊢
      omega
    | undo =>
      simp only [markValid, Bool.and_eq_true] at h
      obtain ⟨hne, hrest⟩ := h
      have hlen : 1 ≤ ps.length := by
        cases ps with
        | nil => simp at hne
        | cons a ps => simp
      simp only [runOps, handleUndo]
      have := ih ps.dropLast hrest
      have hdl := List.length_dropLast ps
      simp only [countAdds, countUndos]
      rw [this, hdl]
      push_cast [hdl]
      omega

/-- A concrete orchestrator state on the MARKING screen with two
captured points and no prior result. -/
def markedState : OrchState :=
  ⟨AppState.marking, some "map", none, none, none, [⟨1, 2⟩, ⟨3, 4⟩]⟩

/-- A concrete orchestrator state on the MARKING screen with a single
captured point. -/
def oneMarkState : OrchState :=
  ⟨AppState.marking, some "map", none, none, none, [⟨5, 6⟩]⟩

/-- C1 (code bug in the source): evaluating the orchestrator at the
failing input, a MARKING state with two captured points and no prior
result whose first generation fails: the error is surfaced and the
state returns to MARKING as the claim says, but the MARKING to
GENERATING and GENERATING to MARKING screen changes each remount
MapMarker, so the freshly mounted MapMarker holds an empty points list:
the captured PointSet is not intact and the user must re-mark,
contrary to the claim and to the spec intent. -/
theorem c1_points_lost_on_first_failure :
    markedState.generatedImageUrl = none
    ∧ markedState.points = [⟨1, 2⟩, ⟨3, 4⟩]
    ∧ serviceFailed (Except.error "network down") = true
    ∧ (handleGenerationStart markedState "merged" (Except.error "network down")).appState
        = AppState.marking
    ∧ (handleGenerationStart markedState "merged" (Except.error "network down")).error.isSome
        = true
    ∧ (handleGenerationStart markedState "merged" (Except.error "network down")).points
        = [] := by
  refine ⟨rfl, rfl, rfl, ?_, ?_, ?_⟩ <;>
    simp [handleGenerationStart, setAppStateRender, pointsAfterRender,
      markedState]

/-- C2 amended: the stored point count never exceeds 2 and an Add at
two points or while disabled is a no-op, for every sequence; the count
formula min(adds - undos, 2) holds for the sequences in which every Add
occurs below two points and every Undo on a nonempty set (the valid
sequences; a clamped no-op breaks the formula, see the
counterexample). -/
theorem c2_point_capture_invariant :
    (∀ ops : List (MarkOp ℚ), markValid ([] : List (Pt ℚ)) ops = true →
        ((runOps false [] ops).length : ℤ) =
          min ((countAdds ops : ℤ) - countUndos ops) 2)
    ∧ (∀ (ops : List (MarkOp ℚ)) (ps : List (Pt ℚ)),
        ps.length ≤ 2 → (runOps false ps ops).length ≤ 2)
    ∧ (∀ (d : Bool) (ps : List (Pt ℚ)) (e : Ev ℚ),
        2 ≤ ps.length ∨ d = true → handleCanvasClick d ps e = ps) := by
  refine ⟨?_, ?_, ?_⟩
  · intro ops h
    have h1 := runOps_length_valid ops [] h
    have h2 := runOps_length_le_two false ops [] (by simp)
    simp only [List.length_nil, Nat.cast_zero, zero_add] at h1
    omega
  · intro ops ps h
    exact runOps_length_le_two false ops ps h
  · intro d ps e h
    unfold handleCanvasClick
    rw [if_pos h]

/-- C2 witness: the valid sequence Add, Undo, Add, Add satisfies the
count formula; the clamped run stays at two or below; a disabled Add is
a no-op. -/
theorem c2_point_capture_invariant_witness :
    markValid ([] : List (Pt ℚ)) opsValidRun = true
    ∧ ((runOps false [] opsValidRun).length : ℤ) =
        min ((countAdds opsValidRun : ℤ) - countUndos opsValidRun) 2
    ∧ (runOps false ([] : List (Pt ℚ)) opsClamp).length ≤ 2
    ∧ handleCanvasClick true ([] : List (Pt ℚ)) evZero = [] := by
  refine ⟨by decide, c2_point_capture_invariant.1 opsValidRun (by decide),
    c2_point_capture_invariant.2.1 opsClamp [] (by decide),
    c2_point_capture_invariant.2.2 true [] evZero (Or.inr rfl)⟩

/-- C2 counterexample: on Add, Add, Add, Undo the machine holds one
point while min(adds - undos, 2) = 2, so the claimed formula fails for
arbitrary sequences once an Add is clamped. -/
theorem c2_point_capture_counterexample :
    ¬ (((runOps false ([] : List (Pt ℚ)) opsClamp).length : ℤ) =
        min ((countAdds opsClamp : ℤ) - countUndos opsClamp) 2) := by
  decide

/-- C3: triggering regenerate with no cached merged image surfaces the
guidance error, lands in MARKING, and makes no service call; and any
single regenerate trigger contacts the service at most once. -/
theorem c3_regenerate_missing_artifact (s : OrchState)
    (svc : Except String (Option String)) (h : s.lastMergedImage = none) :
    ((handleRegenerate s svc).1.appState = AppState.marking
      ∧ (handleRegenerate s svc).1.error =
          some ("Cannot regenerate, previous image data is missing." ++
            " Please try marking a spot again.")
      ∧ (handleRegenerate s svc).2 = 0)
    ∧ ∀ (s2 : OrchState) (svc2 : Except String (Option String)),
        (handleRegenerate s2 svc2).2 ≤ 1 := by
  constructor
  · have hf : truthy s.lastMergedImage = false := by rw [h]; rfl
    refine ⟨?_, ?_, ?_⟩ <;>
      simp [handleRegenerate, setAppStateRender, hf]
  · intro s2 svc2
    unfold handleRegenerate
    split
    · simp
    · cases svc2 with
      | ok r =>
        dsimp only
        split <;> simp
      | error m => simp

/-- C3 witness: a RESULT state whose cached merged image was cleared. -/
theorem c3_regenerate_missing_artifact_witness :
    (⟨AppState.result, some "map", some "gen", none, none, []⟩ :
        OrchState).lastMergedImage = none
    ∧ (handleRegenerate
        ⟨AppState.result, some "map", some "gen", none, none, []⟩
        (Except.ok (some "img"))).1.appState = AppState.marking
    ∧ (handleRegenerate
        ⟨AppState.result, some "map", some "gen", none, none, []⟩
        (Except.ok (some "img"))).2 = 0 := by
  obtain ⟨⟨a, b, c⟩, d⟩ := c3_regenerate_missing_artifact
    ⟨AppState.result, some "map", some "gen", none, none, []⟩
    (Except.ok (some "img")) rfl
  exact ⟨rfl, a, c⟩

/-- C4: when a regenerate attempt fails or returns no image and a prior
successful result exists, the orchestrator surfaces the error, keeps
the stored generated image, and ends in RESULT. -/
theorem c4_regenerate_failure_keeps_result (s : OrchState)
    (svc : Except String (Option String)) (img : String)
    (hcache : truthy s.lastMergedImage = true)
    (hprev : s.generatedImageUrl = some img)
    (hfail : serviceFailed svc = true) :
    (handleRegenerate s svc).1.appState = AppState.result
    ∧ (handleRegenerate s svc).1.generatedImageUrl = some img
    ∧ (handleRegenerate s svc).1.error.isSome = true := by
  cases svc with
  | error m =>
    refine ⟨?_, ?_, ?_⟩ <;>
      simp [handleRegenerate, setAppStateRender, hcache, hprev]
  | ok r =>
    have hf : truthy r = false := by
      simpa [serviceFailed] using hfail
    refine ⟨?_, ?_, ?_⟩ <;>
      simp [handleRegenerate, setAppStateRender, hcache, hprev, hf]

/-- C4 witness: the concrete RESULT state with an empty regenerate
outcome keeps its generated image. -/
theorem c4_regenerate_failure_keeps_result_witness :
    truthy resultState.lastMergedImage = true
    ∧ resultState.generatedImageUrl = some "generated"
    ∧ serviceFailed (Except.ok none) = true
    ∧ (handleRegenerate resultState (Except.ok none)).1.appState = AppState.result
    ∧ (handleRegenerate resultState (Except.ok none)).1.generatedImageUrl
        = some "generated"
    ∧ (handleRegenerate resultState (Except.ok none)).1.error.isSome = true := by
  obtain ⟨a, b, c⟩ := c4_regenerate_failure_keeps_result resultState
    (Except.ok none) "generated" rfl rfl rfl
  exact ⟨rfl, rfl, rfl, a, b, c⟩

/-- C5 counterexample: from a concrete RESULT state, the full restart
(handleRestart, leading back to MARKING) leaves the cached merged image
present, where the claim says it is discarded. -/
theorem c5_restart_counterexample :
    resultState.appState = AppState.result
    ∧ (handleRestart resultState).appState = AppState.marking
    ∧ (handleRestart resultState).lastMergedImage ≠ none := by
  refine ⟨rfl, rfl, ?_⟩
  simp [handleRestart, setAppStateRender, resultState]

/-- C5 amended: the cached merged image is discarded by upload-new, and
retained unchanged both across a regenerate cycle and across a full
restart (the source handleRestart does not clear it). -/
theorem c5_artifact_ownership (s : OrchState)
    (svc : Except String (Option String)) :
    (handleUploadNew s).lastMergedImage = none
    ∧ (handleRegenerate s svc).1.lastMergedImage = s.lastMergedImage
    ∧ (handleRestart s).lastMergedImage = s.lastMergedImage := by
  refine ⟨rfl, ?_, rfl⟩
  unfold handleRegenerate
  split
  · rfl
  · cases svc with
    | ok r =>
      dsimp only
      split <;> rfl
    | error m => rfl

/-- C9: with a points count other than two, handleGenerateClick
produces no artifact, the wired export trigger leaves the orchestrator
state unchanged (no GENERATING transition), and the Generate button is
disabled. -/
theorem c9_export_requires_two_points (s : OrchState) (canvasReady : Bool)
    (encode : List (Pt ℚ) → String) (svc : Except String (Option String))
    (h : s.points.length ≠ 2) :
    handleGenerateClick canvasReady s.points encode = none
    ∧ triggerExport s canvasReady encode svc = s
    ∧ generateButtonDisabled s.points false = true := by
  have hclick : handleGenerateClick canvasReady s.points encode = none := by
    unfold handleGenerateClick
    rw [if_pos (Or.inr h)]
  refine ⟨hclick, ?_, ?_⟩
  · unfold triggerExport
    rw [hclick]
  · simp [generateButtonDisabled, h]

/-- C9 witness: the concrete one-point marking state. -/
theorem c9_export_requires_two_points_witness :
    oneMarkState.points.length ≠ 2
    ∧ handleGenerateClick true oneMarkState.points (fun _ => "enc") = none
    ∧ triggerExport oneMarkState true (fun _ => "enc")
        (Except.ok (some "img")) = oneMarkState
    ∧ generateButtonDisabled oneMarkState.points false = true := by
  have h : oneMarkState.points.length ≠ 2 := by decide
  obtain ⟨a, b, c⟩ := c9_export_requires_two_points oneMarkState true
    (fun _ => "enc") (Except.ok (some "img")) h
  exact ⟨h, a, b, c⟩

/-- A concrete click event with displayed size equal to native size
(both scale factors exactly 1). -/
def evScaleOne : Ev ℚ := ⟨10, 20, 2, 3, 5, 7, 5, 7⟩

/-- A concrete real-valued click event whose mapped point is (3, 4). -/
def evPt34 : Ev ℝ := ⟨3, 4, 0, 0, 1, 1, 1, 1⟩

/-- C6: the coordinate mapper computes
imageX = (eventX - rectLeft) * (nativeWidth / displayedWidth) and
imageY = (eventY - rectTop) * (nativeHeight / displayedHeight), and
with both scale factors exactly 1 the mapped point is the raw event
position minus the rectangle origin. -/
theorem c6_coordinate_mapper (e : Ev ℚ) :
    mapCoords e = ⟨(e.clientX - e.rectLeft) * (e.canvasWidth / e.rectWidth),
      (e.clientY - e.rectTop) * (e.canvasHeight / e.rectHeight)⟩
    ∧ (e.rectWidth = e.canvasWidth → e.canvasWidth ≠ 0 →
        e.rectHeight = e.canvasHeight → e.canvasHeight ≠ 0 →
        mapCoords e = ⟨e.clientX - e.rectLeft, e.clientY - e.rectTop⟩) := by
  constructor
  · rfl
  · intro hw hw0 hh hh0
    simp [mapCoords, hw, hh, div_self hw0, div_self hh0]

/-- C6 witness: the concrete scale-one event maps to the event position
minus the rectangle origin. -/
theorem c6_coordinate_mapper_witness :
    evScaleOne.rectWidth = evScaleOne.canvasWidth
    ∧ evScaleOne.canvasWidth ≠ 0
    ∧ evScaleOne.rectHeight = evScaleOne.canvasHeight
    ∧ evScaleOne.canvasHeight ≠ 0
    ∧ mapCoords evScaleOne = ⟨8, 17⟩ := by
  have h := (c6_coordinate_mapper evScaleOne).2 rfl (by decide) rfl (by decide)
  refine ⟨rfl, by decide, rfl, by decide, ?_⟩
  rw [h]
  norm_num [evScaleOne, Pt.mk.injEq]

/-- C7: for identical points the zero-length guard makes drawArrow
issue no command at all (in particular no stroke and no division by the
length), while the click handler still records the second, identical
point. -/
theorem c7_zero_length_guard (fr tp : Pt ℝ) (h : fr = tp) (e : Ev ℝ)
    (he : mapCoords e = tp) :
    drawArrow fr tp = [] ∧ handleCanvasClick false [fr] e = [fr, tp] := by
  constructor
  · subst h
    simp [drawArrow]
  · unfold handleCanvasClick
    have hg : ¬ (2 ≤ ([fr] : List (Pt ℝ)).length ∨ false = true) := by
      simp
    rw [if_neg hg, he]
    rfl

/-- C7 witness: clicking the point (3, 4) twice records it twice and
the degenerate arrow draws nothing. -/
theorem c7_zero_length_guard_witness :
    (⟨3, 4⟩ : Pt ℝ) = (⟨3, 4⟩ : Pt ℝ)
    ∧ mapCoords evPt34 = (⟨3, 4⟩ : Pt ℝ)
    ∧ drawArrow ⟨3, 4⟩ ⟨3, 4⟩ = []
    ∧ handleCanvasClick false [(⟨3, 4⟩ : Pt ℝ)] evPt34 = [⟨3, 4⟩, ⟨3, 4⟩] := by
  have he : mapCoords evPt34 = (⟨3, 4⟩ : Pt ℝ) := by
    norm_num [mapCoords, evPt34, Pt.mk.injEq]
  obtain ⟨a, b⟩ := c7_zero_length_guard ⟨3, 4⟩ ⟨3, 4⟩ rfl evPt34 he
  exact ⟨rfl, he, a, b⟩

/-- chompLit succeeds exactly by removing the expected literal: the
input is the literal followed by the remainder. -/
theorem chompLit_sound : ∀ p l r : List Char, chompLit p l = some r → l = p ++ r := by
  intro p
  induction p with
  | nil =>
    intro l r h
    simpa [chompLit] using h
  | cons a p ih =>
    intro l r h
    cases l with
    | nil => simp [chompLit] at h
    | cons c cs =>
      simp only [chompLit] at h
      split at h
      · rename_i hc
        subst hc
        simpa using ih cs r h
      · exact absurd h (by simp)

/-- Every character kept by takeWhile satisfies the scanned test. -/
theorem takeWhile_isLower_all (l : List Char) :
    (l.takeWhile isLowerAlpha).all isLowerAlpha = true := by
  induction l with
  | nil => rfl
  | cons a l ih =>
    by_cases h : isLowerAlpha a
    · simp [List.takeWhile_cons, h, ih]
    · simp [List.takeWhile_cons, h]

/-- Whenever base64ToInlineData accepts an input, the input is of the
shape data:image/<nonempty lowercase letters>;base64,<payload>. -/
theorem base64ToInlineData_sound (s : String) (md : String × String)
    (h : base64ToInlineData s = some md) : claimPatternMatch s := by
  unfold base64ToInlineData at h
  cases h1 : chompLit "data:image/".data s.data with
  | none => rw [h1] at h; simp at h
  | some rest =>
    rw [h1] at h
    dsimp only at h
    by_cases h2 : rest.takeWhile isLowerAlpha = []
    · rw [if_pos h2] at h
      simp at h
    · rw [if_neg h2] at h
      cases h3 : chompLit ";base64,".data (rest.dropWhile isLowerAlpha) with
      | none => rw [h3] at h; simp at h
      | some payload =>
        rw [h3] at h
        dsimp only at h
        by_cases h4 : payload.any lineTerminator = true
        · rw [if_pos h4] at h
          simp at h
        · refine ⟨rest.takeWhile isLowerAlpha, payload, h2,
            takeWhile_isLower_all rest, ?_⟩
          have e1 := chompLit_sound _ _ _ h1
          have e3 := chompLit_sound _ _ _ h3
          have hrest : rest =
              rest.takeWhile isLowerAlpha ++ (";base64,".data ++ payload) := by
            rw [← e3, List.takeWhile_append_dropWhile]
          rw [e1]
          conv_lhs => rw [hrest]
          simp [List.append_assoc]

/-- C10: an input that does not match
data:image/<lowercase ASCII letters>;base64,<payload> is rejected by
base64ToInlineData, on which generateStreetView throws the invalid
format error without contacting the external service (zero calls); the
orchestrator surfaces any thrown generateStreetView error. The claimed
examples (a plus sign in the subtype, a non data URI) are rejected. -/
theorem c10_invalid_input_rejected :
    (∀ s : String, ¬ claimPatternMatch s → base64ToInlineData s = none)
    ∧ (∀ (s : String) (svc : Except String (List (Option (String × String)))),
        base64ToInlineData s = none →
          generateStreetView s svc =
            (Except.error "Gemini API Error: Invalid base64 string format", 0))
    ∧ base64ToInlineData "data:image/svg+xml;base64,AAAA" = none
    ∧ base64ToInlineData "not a data uri" = none
    ∧ (∀ (st : OrchState) (merged msg : String),
        (handleGenerationStart st merged (Except.error msg)).error.isSome = true) := by
  refine ⟨?_, ?_, by decide, by decide, ?_⟩
  · intro s hn
    cases h : base64ToInlineData s with
    | none => rfl
    | some md => exact absurd (base64ToInlineData_sound s md h) hn
  · intro s svc h
    unfold generateStreetView
    rw [h]
    rfl
  · intro st merged msg
    simp [handleGenerationStart, setAppStateRender]

/-- C10 witness: the plain string hello is rejected without a service
call. -/
theorem c10_invalid_input_rejected_witness :
    ¬ claimPatternMatch "hello"
    ∧ base64ToInlineData "hello" = none
    ∧ generateStreetView "hello" (Except.ok []) =
        (Except.error "Gemini API Error: Invalid base64 string format", 0) := by
  have hn : ¬ claimPatternMatch "hello" := by
    rintro ⟨sub, payload, hne, hall, hEq⟩
    have hlen := congrArg List.length hEq
    simp only [List.length_append] at hlen
    have e1 : ("hello".data).length = 5 := rfl
    have e2 : ("data:image/".data).length = 11 := rfl
    have e3 : ((";base64,".data)).length = 8 := rfl
    rw [e1, e2, e3] at hlen
    omega
  refine ⟨hn, c10_invalid_input_rejected.1 "hello" hn,
    c10_invalid_input_rejected.2.1 "hello" (Except.ok [])
      (c10_invalid_input_rejected.1 "hello" hn)⟩

/-- Distinct points have a nonzero coordinate difference. -/
theorem sub_ne_zero_of_pt_ne (fr tp : Pt ℝ) (h : fr ≠ tp) :
    tp.x - fr.x ≠ 0 ∨ tp.y - fr.y ≠ 0 := by
  by_contra hcon
  push_neg at hcon
  obtain ⟨h1, h2⟩ := hcon
  apply h
  have hx : fr.x = tp.x := by linarith
  have hy : fr.y = tp.y := by linarith
  cases fr
  cases tp
  simp_all

/-- For distinct points the squared chord is positive. -/
theorem sq_dist_pos_of_pt_ne (fr tp : Pt ℝ) (h : fr ≠ tp) :
    0 < (tp.x - fr.x) * (tp.x - fr.x) + (tp.y - fr.y) * (tp.y - fr.y) := by
  rcases sub_ne_zero_of_pt_ne fr tp h with h1 | h1
  · have ha := mul_self_pos.mpr h1
    have hb := mul_self_nonneg (tp.y - fr.y)
    linarith
  · have ha := mul_self_pos.mpr h1
    have hb := mul_self_nonneg (tp.x - fr.x)
    linarith

/-- For distinct points the computed arrow length is nonzero, so the
zero-length guard of drawArrow does not fire. -/
theorem length_ne_zero_of_pt_ne (fr tp : Pt ℝ) (h : fr ≠ tp) :
    Real.sqrt ((tp.x - fr.x) * (tp.x - fr.x) +
      (tp.y - fr.y) * (tp.y - fr.y)) ≠ 0 :=
  (Real.sqrt_pos.mpr (sq_dist_pos_of_pt_ne fr tp h)).ne'

/-- The cosine of the arrow angle is the normalized x component of the
direction vector. -/
theorem cos_atan2_eq (fr tp : Pt ℝ) (h : fr ≠ tp) :
    Real.cos (atan2 (tp.y - fr.y) (tp.x - fr.x)) =
      (tp.x - fr.x) / Real.sqrt ((tp.x - fr.x) * (tp.x - fr.x) +
        (tp.y - fr.y) * (tp.y - fr.y)) := by
  have hz : (⟨tp.x - fr.x, tp.y - fr.y⟩ : ℂ) ≠ 0 := by
    intro hc
    rw [Complex.ext_iff] at hc
    rcases sub_ne_zero_of_pt_ne fr tp h with h1 | h1
    · exact h1 hc.1
    · exact h1 hc.2
  rw [atan2, Complex.cos_arg hz, Complex.abs_apply, Complex.normSq_mk]

/-- The sine of the arrow angle is the normalized y component of the
direction vector. -/
theorem sin_atan2_eq (fr tp : Pt ℝ) :
    Real.sin (atan2 (tp.y - fr.y) (tp.x - fr.x)) =
      (tp.y - fr.y) / Real.sqrt ((tp.x - fr.x) * (tp.x - fr.x) +
        (tp.y - fr.y) * (tp.y - fr.y)) := by
  rw [atan2, Complex.sin_arg, Complex.abs_apply, Complex.normSq_mk]

/-- C8: for every distinct pair the arrowhead drawn by drawArrow is two
line segments issued from the head point, whose endpoints are at
squared distance 25 squared from the head, whose dot product with the
reverse unit direction is 25 cos(pi/6) (a 30 degree angle on each
side), and whose cross products with it are 25 sin(pi/6) and its
negation (one segment on each side of the reverse direction). -/
theorem c8_arrowhead_geometry (fr tp : Pt ℝ) (h : fr ≠ tp) :
    [CanvasCmd.moveTo tp.x tp.y,
     CanvasCmd.lineTo (arrowheadEnd1 fr tp).x (arrowheadEnd1 fr tp).y,
     CanvasCmd.moveTo tp.x tp.y,
     CanvasCmd.lineTo (arrowheadEnd2 fr tp).x (arrowheadEnd2 fr tp).y]
      <:+: drawArrow fr tp
    ∧ ((arrowheadEnd1 fr tp).x - tp.x) ^ 2 + ((arrowheadEnd1 fr tp).y - tp.y) ^ 2
        = 25 ^ 2
    ∧ ((arrowheadEnd2 fr tp).x - tp.x) ^ 2 + ((arrowheadEnd2 fr tp).y - tp.y) ^ 2
        = 25 ^ 2
    ∧ ((arrowheadEnd1 fr tp).x - tp.x) * (reverseUnit fr tp).x
        + ((arrowheadEnd1 fr tp).y - tp.y) * (reverseUnit fr tp).y
        = 25 * Real.cos (Real.pi / 6)
    ∧ ((arrowheadEnd2 fr tp).x - tp.x) * (reverseUnit fr tp).x
        + ((arrowheadEnd2 fr tp).y - tp.y) * (reverseUnit fr tp).y
        = 25 * Real.cos (Real.pi / 6)
    ∧ ((arrowheadEnd1 fr tp).x - tp.x) * (reverseUnit fr tp).y
        - ((arrowheadEnd1 fr tp).y - tp.y) * (reverseUnit fr tp).x
        = 25 * Real.sin (Real.pi / 6)
    ∧ ((arrowheadEnd2 fr tp).x - tp.x) * (reverseUnit fr tp).y
        - ((arrowheadEnd2 fr tp).y - tp.y) * (reverseUnit fr tp).x
        = -(25 * Real.sin (Real.pi / 6)) := by
  have hLne := length_ne_zero_of_pt_ne fr tp h
  have hcos := cos_atan2_eq fr tp h
  have hsin := sin_atan2_eq fr tp
  have hcs := Real.sin_sq_add_cos_sq (atan2 (tp.y - fr.y) (tp.x - fr.x))
  refine ⟨?_, ?_, ?_, ?_, ?_, ?_, ?_⟩
  · simp only [drawArrow]
    rw [if_neg hLne]
    exact ⟨[CanvasCmd.setStrokeStyle "#FF007A",
      CanvasCmd.setLineWidth 6,
      CanvasCmd.setLineCap "round",
      CanvasCmd.setShadowColor "rgba(0, 0, 0, 0.7)",
      CanvasCmd.setShadowBlur 10,
      CanvasCmd.beginPath,
      CanvasCmd.moveTo
        (fr.x - (tp.x - fr.x) / Real.sqrt ((tp.x - fr.x) * (tp.x - fr.x) +
          (tp.y - fr.y) * (tp.y - fr.y)) * 50)
        (fr.y - (tp.y - fr.y) / Real.sqrt ((tp.x - fr.x) * (tp.x - fr.x) +
          (tp.y - fr.y) * (tp.y - fr.y)) * 50),
      CanvasCmd.lineTo tp.x tp.y,
      CanvasCmd.stroke,
      CanvasCmd.beginPath],
      [CanvasCmd.stroke,
       CanvasCmd.setShadowColor "transparent",
       CanvasCmd.setShadowBlur 0], rfl⟩
  · simp only [arrowheadEnd1]
    linear_combination (625 : ℝ) *
      Real.sin_sq_add_cos_sq (atan2 (tp.y - fr.y) (tp.x - fr.x) - Real.pi / 6)
  · simp only [arrowheadEnd2]
    linear_combination (625 : ℝ) *
      Real.sin_sq_add_cos_sq (atan2 (tp.y - fr.y) (tp.x - fr.x) + Real.pi / 6)
  · simp only [arrowheadEnd1, reverseUnit]
    rw [← hcos, ← hsin, Real.cos_sub, Real.sin_sub]
    linear_combination (25 * Real.cos (Real.pi / 6)) * hcs
  · simp only [arrowheadEnd2, reverseUnit]
    rw [← hcos, ← hsin, Real.cos_add, Real.sin_add]
    linear_combination (25 * Real.cos (Real.pi / 6)) * hcs
  · simp only [arrowheadEnd1, reverseUnit]
    rw [← hcos, ← hsin, Real.cos_sub, Real.sin_sub]
    linear_combination (25 * Real.sin (Real.pi / 6)) * hcs
  · simp only [arrowheadEnd2, reverseUnit]
    rw [← hcos, ← hsin, Real.cos_add, Real.sin_add]
    linear_combination (-(25 * Real.sin (Real.pi / 6))) * hcs

/-- C8 witness: for from (0,0) and to (100,0) the reverse direction is
exactly (-1, 0) and both drawn arrowhead endpoints sit at distance 25
from the head forming exactly 30 degrees on each side of it. -/
theorem c8_arrowhead_geometry_witness :
    (⟨0, 0⟩ : Pt ℝ) ≠ (⟨100, 0⟩ : Pt ℝ)
    ∧ reverseUnit ⟨0, 0⟩ ⟨100, 0⟩ = (⟨-1, 0⟩ : Pt ℝ)
    ∧ ((arrowheadEnd1 (⟨0, 0⟩ : Pt ℝ) ⟨100, 0⟩).x - (⟨100, 0⟩ : Pt ℝ).x) ^ 2
        + ((arrowheadEnd1 (⟨0, 0⟩ : Pt ℝ) ⟨100, 0⟩).y - (⟨100, 0⟩ : Pt ℝ).y) ^ 2
        = 25 ^ 2
    ∧ ((arrowheadEnd1 (⟨0, 0⟩ : Pt ℝ) ⟨100, 0⟩).x - (⟨100, 0⟩ : Pt ℝ).x)
          * (reverseUnit ⟨0, 0⟩ ⟨100, 0⟩).x
        + ((arrowheadEnd1 (⟨0, 0⟩ : Pt ℝ) ⟨100, 0⟩).y - (⟨100, 0⟩ : Pt ℝ).y)
          * (reverseUnit ⟨0, 0⟩ ⟨100, 0⟩).y
        = 25 * Real.cos (Real.pi / 6)
    ∧ ((arrowheadEnd2 (⟨0, 0⟩ : Pt ℝ) ⟨100, 0⟩).x - (⟨100, 0⟩ : Pt ℝ).x)
          * (reverseUnit ⟨0, 0⟩ ⟨100, 0⟩).x
        + ((arrowheadEnd2 (⟨0, 0⟩ : Pt ℝ) ⟨100, 0⟩).y - (⟨100, 0⟩ : Pt ℝ).y)
          * (reverseUnit ⟨0, 0⟩ ⟨100, 0⟩).y
        = 25 * Real.cos (Real.pi / 6) := by
  have h : (⟨0, 0⟩ : Pt ℝ) ≠ (⟨100, 0⟩ : Pt ℝ) := by
    norm_num [Pt.mk.injEq]
  obtain ⟨_, hlen1, _, hdot1, hdot2, _, _⟩ := c8_arrowhead_geometry ⟨0, 0⟩ ⟨100, 0⟩ h
  have hru : reverseUnit ⟨0, 0⟩ ⟨100, 0⟩ = (⟨-1, 0⟩ : Pt ℝ) := by
    have h100 : Real.sqrt (((100 : ℝ) - 0) * ((100 : ℝ) - 0) +
        ((0 : ℝ) - 0) * ((0 : ℝ) - 0)) = 100 := by
      rw [show ((100 : ℝ) - 0) * ((100 : ℝ) - 0) +
        ((0 : ℝ) - 0) * ((0 : ℝ) - 0) = 100 ^ 2 by ring]
      rw [Real.sqrt_sq]
      norm_num
    simp only [reverseUnit, h100, Pt.mk.injEq]
    norm_num
  exact ⟨h, hru, hlen1, hdot1, hdot2⟩

end StreetView
